import Mathlib

/-!
Verification of the log-scraping / benchmark-driver core of the
LLM-Benchmarking repository (`benchmark_cli.py`, `ppl.py`).

Modelling conventions.

* Python floats are modelled as exact rationals (`ℚ`); `float(s) / 1000.0`
  becomes exact division in `ℚ`.
* `re.search` for the five concrete patterns used by the code is modelled by
  deterministic leftmost matchers (`searchBy` below).  In each of the five
  patterns every greedy piece (`\s*`, `[\d\.]+`, `\d+`) is followed by a
  piece whose first character lies in a disjoint character class, so greedy
  matching with backtracking coincides with the deterministic maximal-munch
  matchers; the one ordered alternation `(?:tok/s|tokens per second)\)` is
  modelled by trying both branches.
* `\s`, `\d` and `str.strip` are modelled over the six ASCII whitespace
  characters and the ASCII digits; Unicode whitespace/digits and the exotic
  line boundaries of `str.splitlines` (`\x0b`, `\x0c`, `\x1c`-`\x1e`,
  `\x85`, U+2028, U+2029) are not modelled: `splitlinesC` splits on
  `\n`, `\r\n` and `\r`, which also covers `f.readlines()` under Python's
  universal-newline translation.
* A Python function that can raise is embedded as `Except String`; the
  subprocess boundary is an oracle parameter `run : List String → ProcOut`
  mapping the constructed command line to the captured streams.
-/

/-- ASCII whitespace: the characters of Python's `str.strip` default set and
of the regex class `\s` (restricted to ASCII). -/
def isSpaceC (c : Char) : Bool :=
  c = ' ' || c = '\t' || c = '\n' || c = '\x0b' || c = '\x0c' || c = '\r'

/-- ASCII digit, the regex class `\d` (restricted to ASCII). -/
def isDigitC (c : Char) : Bool :=
  c.isDigit

/-- The regex character class `[\d\.]`. -/
def isNumC (c : Char) : Bool :=
  isDigitC c || c = '.'

/-- Match a literal at the head of the text, returning the remainder. -/
def dropLit : List Char → List Char → Option (List Char)
  | [], cs => some cs
  | _ :: _, [] => none
  | p :: ps, c :: cs => if p = c then dropLit ps cs else none

/-- Does `pat` occur at the head of the text? -/
def leadsC (pat cs : List Char) : Bool :=
  (dropLit pat cs).isSome

/-- Python substring containment (`pat in s`). -/
def occursIn (pat : List Char) : List Char → Bool
  | [] => leadsC pat []
  | c :: cs => leadsC pat (c :: cs) || occursIn pat cs

/-- Numeric value of a list of ASCII digits (most significant first). -/
def digitsVal (ds : List Char) : Nat :=
  ds.foldl (fun a c => 10 * a + (c.toNat - '0'.toNat)) 0

/-- Python `float` applied to a capture of the class `[\d\.]+`: it succeeds
exactly when the capture has at least one digit and at most one dot, and
then denotes mantissa and decimal-exponent, the value being
`mantissa / 10 ^ exponent`. -/
def pyFloatParts (g : List Char) : Option (Nat × Nat) :=
  if g.any isDigitC && g.count '.' ≤ 1 then
    let ip := g.takeWhile (fun c => c ≠ '.')
    let fp := (g.dropWhile (fun c => c ≠ '.')).drop 1
    some (digitsVal ip * 10 ^ fp.length + digitsVal fp, fp.length)
  else none

/-- The rational value of a Python float literal of the class `[\d\.]+`. -/
def pyFloatQ (g : List Char) : Option ℚ :=
  (pyFloatParts g).map (fun p => mkRat p.1 (10 ^ p.2))

/-- Python `str.splitlines`, restricted to the `\n`, `\r\n` and `\r` line
boundaries (a trailing boundary produces no empty final line). -/
def splitlinesGo : List Char → List Char → List (List Char)
  | [], acc => if acc.isEmpty then [] else [acc.reverse]
  | '\r' :: '\n' :: cs, acc => acc.reverse :: splitlinesGo cs []
  | '\r' :: cs, acc => acc.reverse :: splitlinesGo cs []
  | '\n' :: cs, acc => acc.reverse :: splitlinesGo cs []
  | c :: cs, acc => splitlinesGo cs (c :: acc)

def splitlinesC (cs : List Char) : List (List Char) :=
  splitlinesGo cs []

/-- Matcher for `load time\s*=\s*([\d\.]+)\s*ms` anchored at the current
position, returning the capture. -/
def matchLoadAt (cs : List Char) : Option (List Char) := do
  let cs ← dropLit "load time".data cs
  let cs ← dropLit "=".data (cs.dropWhile isSpaceC)
  let cs := cs.dropWhile isSpaceC
  let g := cs.takeWhile isNumC
  if g.isEmpty then none else do
    let _ ← dropLit "ms".data ((cs.dropWhile isNumC).dropWhile isSpaceC)
    some g

/-- Matcher for `eval time\s*=\s*([\d\.]+)\s*ms` anchored at the current
position, returning the capture. -/
def matchEvalMsAt (cs : List Char) : Option (List Char) := do
  let cs ← dropLit "eval time".data cs
  let cs ← dropLit "=".data (cs.dropWhile isSpaceC)
  let cs := cs.dropWhile isSpaceC
  let g := cs.takeWhile isNumC
  if g.isEmpty then none else do
    let _ ← dropLit "ms".data ((cs.dropWhile isNumC).dropWhile isSpaceC)
    some g

/-- Matcher for
`\(\s*[\d\.]+\s*ms per token,\s*([\d\.]+)\s*(?:tok/s|tokens per second)\)`
anchored at the current position, returning the capture. -/
def matchTpsAt (cs : List Char) : Option (List Char) := do
  let cs ← dropLit "(".data cs
  let cs := cs.dropWhile isSpaceC
  let n1 := cs.takeWhile isNumC
  if n1.isEmpty then none else do
    let cs ← dropLit "ms per token,".data ((cs.dropWhile isNumC).dropWhile isSpaceC)
    let cs := cs.dropWhile isSpaceC
    let g := cs.takeWhile isNumC
    if g.isEmpty then none else
      let rest := (cs.dropWhile isNumC).dropWhile isSpaceC
      match dropLit "tok/s)".data rest with
      | some _ => some g
      | none =>
        match dropLit "tokens per second)".data rest with
        | some _ => some g
        | none => none

/-- Matcher for `eval time\s*=\s*[\d\.]+\s*ms\s*/\s*(\d+)\s*runs` anchored
at the current position, returning the capture. -/
def matchRunsAt (cs : List Char) : Option (List Char) := do
  let cs ← dropLit "eval time".data cs
  let cs ← dropLit "=".data (cs.dropWhile isSpaceC)
  let cs := cs.dropWhile isSpaceC
  let n1 := cs.takeWhile isNumC
  if n1.isEmpty then none else do
    let cs ← dropLit "ms".data ((cs.dropWhile isNumC).dropWhile isSpaceC)
    let cs ← dropLit "/".data (cs.dropWhile isSpaceC)
    let cs := cs.dropWhile isSpaceC
    let g := cs.takeWhile isDigitC
    if g.isEmpty then none else do
      let _ ← dropLit "runs".data ((cs.dropWhile isDigitC).dropWhile isSpaceC)
      some g

/-- Matcher for `perplexity\s*=\s*([\d\.]+)` anchored at the current
position, returning the capture. -/
def matchPplAt (cs : List Char) : Option (List Char) := do
  let cs ← dropLit "perplexity".data cs
  let cs ← dropLit "=".data (cs.dropWhile isSpaceC)
  let g := (cs.dropWhile isSpaceC).takeWhile isNumC
  if g.isEmpty then none else some g

/-- Leftmost search: `re.search` tries every start position in order and
returns the capture of the first position where the matcher succeeds. -/
def searchBy (m : List Char → Option (List Char)) : List Char → Option (List Char)
  | [] => m []
  | c :: cs =>
    match m (c :: cs) with
    | some g => some g
    | none => searchBy m cs

/-- The exception message of Python `float` on a bad literal. -/
def valueErrorMsg : String :=
  "ValueError: could not convert string to float"

/-- The record built by `parse_llama_output` (`benchmark_cli.py` lines
29-34), with its four defaulted fields. -/
structure Metrics where
  load_s : ℚ
  eval_s : ℚ
  tokens : Nat
  tps : ℚ
  deriving DecidableEq, Repr

/-- Convert an optional `[\d\.]+` capture of a millisecond quantity:
no capture leaves the field default `0`, a capture is `float`-parsed (which
may raise) and divided by `1000.0`. -/
def msGroupValue : Option (List Char) → Except String ℚ
  | none => Except.ok 0
  | some g =>
    match pyFloatParts g with
    | none => Except.error valueErrorMsg
    | some p => Except.ok (mkRat p.1 (10 ^ p.2 * 1000))

/-- Convert an optional `[\d\.]+` capture taken at face value. -/
def groupValue : Option (List Char) → Except String ℚ
  | none => Except.ok 0
  | some g =>
    match pyFloatQ g with
    | none => Except.error valueErrorMsg
    | some v => Except.ok v

/-- The line filter of `benchmark_cli.py` lines 43-46: a generation-phase
eval line contains `eval time` but not `prompt eval`. -/
def isGenEvalLine (l : List Char) : Bool :=
  occursIn "eval time".data l && !(occursIn "prompt eval".data l)

/-- The extraction block of `benchmark_cli.py` lines 48-65 applied to the
selected eval line: generation time (ms → s), tokens/sec, token count,
in the source's evaluation order (exceptions fire in that order). -/
def evalFieldsOfLine (l : List Char) : Except String (ℚ × ℚ × Nat) :=
  match msGroupValue (searchBy matchEvalMsAt l) with
  | Except.error e => Except.error e
  | Except.ok eval_s =>
    match groupValue (searchBy matchTpsAt l) with
    | Except.error e => Except.error e
    | Except.ok tps =>
      Except.ok (eval_s, tps,
        match searchBy matchRunsAt l with
        | none => 0
        | some g => digitsVal g)

/-- Embeds `parse_llama_output` (`benchmark_cli.py` lines 23-67): load time
from the whole text, then the first line containing `eval time` but not
`prompt eval` supplies eval time, tokens/sec and token count; every
unmatched field keeps its default; a matched capture that is not a valid
float raises (`Except.error`). -/
def parse_llama_output (stderr_output : String) : Except String Metrics :=
  match msGroupValue (searchBy matchLoadAt stderr_output.data) with
  | Except.error e => Except.error e
  | Except.ok load_s =>
    match (splitlinesC stderr_output.data).find? isGenEvalLine with
    | none => Except.ok ⟨load_s, 0, 0, 0⟩
    | some l =>
      match evalFieldsOfLine l with
      | Except.error e => Except.error e
      | Except.ok (eval_s, tps, tokens) => Except.ok ⟨load_s, eval_s, tokens, tps⟩

/-- The exception message of `compute_ppl` when no perplexity pattern
matches (`ppl.py` lines 121-124). -/
def pplErrorMsg : String :=
  "Unable to parse perplexity from llama-perplexity output."

/-- Embeds the extraction stage of `compute_ppl` (`ppl.py` lines 116-126):
given the combined `stdout + stderr` text, the leftmost
`perplexity\s*=\s*([\d\.]+)` capture is `float`-parsed; no match raises
`RuntimeError`. -/
def compute_ppl (output : String) : Except String ℚ :=
  match searchBy matchPplAt output.data with
  | none => Except.error pplErrorMsg
  | some g =>
    match pyFloatQ g with
    | none => Except.error valueErrorMsg
    | some v => Except.ok v

/-- The two captured streams of one `subprocess.run` invocation. -/
structure ProcOut where
  stdout : String
  stderr : String

/-- One row of `run_llama_benchmark`'s result list (`benchmark_cli.py`
lines 131-137). -/
structure BenchmarkRow where
  Model : String
  PromptID : Nat
  Load_s : ℚ
  Eval_s : ℚ
  TPS : ℚ
  deriving DecidableEq, Repr

/-- A run of the driver: the returned rows together with the diagnostic
lines printed to the console (the zero-metric warnings of
`benchmark_cli.py` lines 126-129). -/
structure BenchOutcome where
  rows : List BenchmarkRow
  console : List String
  deriving DecidableEq, Repr

/-- The warning line of `benchmark_cli.py` line 128. -/
def warnMsg (promptId : Nat) : String :=
  "[WARN] llama-cli produced zero metrics for prompt " ++ toString promptId

/-- Python `str.strip` (ASCII whitespace, see `isSpaceC`). -/
def strip (s : String) : String :=
  ⟨(((s.data.dropWhile isSpaceC).reverse.dropWhile isSpaceC).reverse)⟩

/-- The prompt list of `benchmark_cli.py` lines 93-94: each line of the
prompt file is stripped and blank lines are discarded.  (`f.readlines()`
followed by `strip` coincides with `splitlinesC` followed by `strip`.) -/
def promptsOf (content : String) : List String :=
  ((splitlinesC content.data).map (fun l => strip ⟨l⟩)).filter (fun p => p ≠ "")

/-- The command line of `benchmark_cli.py` lines 100-113, with the optional
`-ngl` flag appended only for a positive layer count.  The numeric
parameters are rendered with `toString`; the temperature is passed already
rendered (Python float formatting is outside the model). -/
def buildCommand (llama_cli_path model_path prompt_text : String)
    (max_tokens context_size : Nat) (temperature : String)
    (ngl_layers : Int) : List String :=
  [llama_cli_path,
   "-m", model_path,
   "-p", prompt_text,
   "-n", toString max_tokens,
   "-c", toString context_size,
   "--temp", temperature,
   "--ignore-eos",
   "--no-warmup",
   "-no-cnv"]
  ++ (if ngl_layers > 0 then ["-ngl", toString ngl_layers] else [])

/-- One iteration of the driver loop (`benchmark_cli.py` lines 99-137) for
prompt number `i` (1-based): build the command, capture the process output,
parse the standard-error stream, emit the zero-metric warning if both core
signals are zero, and build the row. -/
def benchStep (run : List String → ProcOut)
    (model_name model_path llama_cli_path : String)
    (max_tokens context_size : Nat) (temperature : String) (ngl_layers : Int)
    (i : Nat) (prompt_text : String) :
    Except String (BenchmarkRow × List String) :=
  match parse_llama_output (run (buildCommand llama_cli_path model_path
      prompt_text max_tokens context_size temperature ngl_layers)).stderr with
  | Except.error e => Except.error e
  | Except.ok metrics =>
    Except.ok
      (⟨model_name, i, metrics.load_s, metrics.eval_s, metrics.tps⟩,
       if metrics.tps = 0 ∧ metrics.tokens = 0 then
         [warnMsg i,
          (run (buildCommand llama_cli_path model_path prompt_text
            max_tokens context_size temperature ngl_layers)).stderr]
       else [])

/-- The driver loop over the enumerated prompts, threading the 1-based
prompt ordinal and collecting rows and console output; an exception in a
step aborts the whole run (as the uncaught Python exception would). -/
def benchLoop (step : Nat → String → Except String (BenchmarkRow × List String)) :
    Nat → List String → Except String BenchOutcome
  | _, [] => Except.ok ⟨[], []⟩
  | i, p :: ps =>
    match step i p with
    | Except.error e => Except.error e
    | Except.ok (row, w) =>
      match benchLoop step (i + 1) ps with
      | Except.error e => Except.error e
      | Except.ok rest => Except.ok ⟨row :: rest.rows, w ++ rest.console⟩

/-- Embeds `run_llama_benchmark` (`benchmark_cli.py` lines 74-139).  The
subprocess boundary is the oracle `run`; the prompt file is given by its
text content. -/
def run_llama_benchmark (run : List String → ProcOut)
    (model_name model_path prompt_file_content llama_cli_path : String)
    (context_size max_tokens : Nat) (ngl_layers : Int) (temperature : String) :
    Except String BenchOutcome :=
  if promptsOf prompt_file_content = [] then
    Except.error "No prompts found in prompt file."
  else
    benchLoop
      (benchStep run model_name model_path llama_cli_path
        max_tokens context_size temperature ngl_layers)
      1 (promptsOf prompt_file_content)

deriving instance DecidableEq for Except

/-- `List.find?` returns the first element satisfying the predicate. -/
theorem find_first_eq {α : Type} (p : α → Bool) (pre : List α) (x : α)
    (post : List α) (hpre : ∀ y ∈ pre, p y = false) (hx : p x = true) :
    (pre ++ x :: post).find? p = some x := by
  induction pre with
  | nil => simp [List.find?, hx]
  | cons a pre ih =>
    have ha : p a = false := hpre a (by simp)
    simp only [List.cons_append, List.find?, ha]
    exact ih (fun y hy => hpre y (by simp [hy]))

/-- Unfolding of a successful `parse_llama_output`: the load field comes
from the load-time search on the whole text, and the three generation
fields come from the first generation eval line when there is one and are
the defaults otherwise. -/
theorem parse_ok_destruct (s : String) (m : Metrics)
    (h : parse_llama_output s = Except.ok m) :
    msGroupValue (searchBy matchLoadAt s.data) = Except.ok m.load_s ∧
    (((splitlinesC s.data).find? isGenEvalLine = none ∧
        m.eval_s = 0 ∧ m.tps = 0 ∧ m.tokens = 0) ∨
      (∃ l, (splitlinesC s.data).find? isGenEvalLine = some l ∧
        evalFieldsOfLine l = Except.ok (m.eval_s, m.tps, m.tokens))) := by
  unfold parse_llama_output at h
  cases h1 : msGroupValue (searchBy matchLoadAt s.data) with
  | error e => rw [h1] at h; exact Except.noConfusion h
  | ok v =>
    rw [h1] at h
    dsimp only at h
    cases h2 : (splitlinesC s.data).find? isGenEvalLine with
    | none =>
      rw [h2] at h
      dsimp only at h
      injection h with h
      subst h
      exact ⟨rfl, Or.inl ⟨rfl, rfl, rfl, rfl⟩⟩
    | some l =>
      rw [h2] at h
      dsimp only at h
      cases h3 : evalFieldsOfLine l with
      | error e => rw [h3] at h; exact Except.noConfusion h
      | ok trip =>
        obtain ⟨e_s, tps, tok⟩ := trip
        rw [h3] at h
        dsimp only at h
        injection h with h
        subst h
        exact ⟨rfl, Or.inr ⟨l, rfl, h3⟩⟩

/-- Unfolding of a successful `evalFieldsOfLine`. -/
theorem evalFields_ok_destruct (l : List Char) (t : ℚ × ℚ × Nat)
    (h : evalFieldsOfLine l = Except.ok t) :
    msGroupValue (searchBy matchEvalMsAt l) = Except.ok t.1 ∧
    groupValue (searchBy matchTpsAt l) = Except.ok t.2.1 ∧
    t.2.2 = (match searchBy matchRunsAt l with
             | none => 0
             | some g => digitsVal g) := by
  unfold evalFieldsOfLine at h
  cases h1 : msGroupValue (searchBy matchEvalMsAt l) with
  | error e => rw [h1] at h; exact Except.noConfusion h
  | ok e_s =>
    rw [h1] at h
    dsimp only at h
    cases h2 : groupValue (searchBy matchTpsAt l) with
    | error e => rw [h2] at h; exact Except.noConfusion h
    | ok tps =>
      rw [h2] at h
      dsimp only at h
      injection h with h
      subst h
      exact ⟨rfl, rfl, rfl⟩

/-- A line without an opening parenthesis cannot match the
tokens-per-second pattern anywhere. -/
theorem searchTps_none_of_no_paren (l : List Char)
    (h : occursIn "(".data l = false) : searchBy matchTpsAt l = none := by
  induction l with
  | nil => rfl
  | cons c cs ih =>
    have hocc : occursIn "(".data (c :: cs) = false := h
    unfold occursIn leadsC at hocc
    simp only [Bool.or_eq_false_iff] at hocc
    obtain ⟨hc, hcs⟩ := hocc
    have hcne : ¬('(' = c) := by
      intro hc'
      subst hc'
      simp [dropLit] at hc
    unfold searchBy
    have hm : matchTpsAt (c :: cs) = none := by
      unfold matchTpsAt
      simp [String.data, dropLit, hcne]
    rw [hm]
    exact ih hcs

/-- C1: whenever the parser returns a record, the three generation metrics
are exactly the extraction of the first line containing "eval time" but not
"prompt eval" — a function of that line alone, so all later matching lines
are ignored — and when the first "eval time" line also contains
"prompt eval" while a later one does not, the selected line is that later
line. -/
theorem C1_gen_metrics_from_first_gen_eval_line (text : String) (m : Metrics)
    (hok : parse_llama_output text = Except.ok m) :
    (∀ l, (splitlinesC text.data).find? isGenEvalLine = some l →
        evalFieldsOfLine l = Except.ok (m.eval_s, m.tps, m.tokens)) ∧
    (∀ pre l₁ mid l₂ post,
        splitlinesC text.data = pre ++ l₁ :: (mid ++ l₂ :: post) →
        (∀ y ∈ pre, occursIn "eval time".data y = false) →
        (∀ y ∈ mid, occursIn "eval time".data y = false) →
        occursIn "eval time".data l₁ = true →
        occursIn "prompt eval".data l₁ = true →
        occursIn "eval time".data l₂ = true →
        occursIn "prompt eval".data l₂ = false →
        (splitlinesC text.data).find? isGenEvalLine = some l₂) := by
  constructor
  · intro l hl
    obtain ⟨-, hor⟩ := parse_ok_destruct text m hok
    rcases hor with ⟨hnone, -⟩ | ⟨l', hl', hf⟩
    · rw [hl] at hnone
      exact Option.noConfusion hnone
    · rw [hl] at hl'
      injection hl' with he
      subst he
      exact hf
  · intro pre l₁ mid l₂ post hsplit hpre hmid _ hl₁p hl₂e hl₂p
    have hre : splitlinesC text.data = (pre ++ l₁ :: mid) ++ l₂ :: post := by
      rw [hsplit]
      simp
    rw [hre]
    apply find_first_eq
    · intro y hy
      rcases List.mem_append.mp hy with hy | hy
      · simp [isGenEvalLine, hpre y hy]
      · rcases List.mem_cons.mp hy with hy | hy
        · subst hy
          simp [isGenEvalLine, hl₁p]
        · simp [isGenEvalLine, hmid y hy]
    · simp [isGenEvalLine, hl₂e, hl₂p]

/-- Witness for C1 at a concrete two-line text whose first "eval time" line
is a prompt-eval line. -/
theorem C1_witness :
    parse_llama_output
        "prompt eval time = 10.0 ms\neval time = 2000.0 ms / 20 runs (100.0 ms per token, 10.0 tok/s)"
      = Except.ok ⟨0, 2, 20, 10⟩ ∧
    evalFieldsOfLine
        "eval time = 2000.0 ms / 20 runs (100.0 ms per token, 10.0 tok/s)".data
      = Except.ok (2, 10, 20) :=
  ⟨by decide,
   (C1_gen_metrics_from_first_gen_eval_line
      "prompt eval time = 10.0 ms\neval time = 2000.0 ms / 20 runs (100.0 ms per token, 10.0 tok/s)"
      ⟨0, 2, 20, 10⟩ (by decide)).1
     "eval time = 2000.0 ms / 20 runs (100.0 ms per token, 10.0 tok/s)".data
     (by decide)⟩

/-- C2, counterexample: an eval line carrying the bare literal form
"12.34 tok/s" (no parenthetical) yields tps 0, not 12.34. -/
theorem C2_counterexample :
    parse_llama_output "eval time = 100.0 ms / 10 runs, 12.34 tok/s"
      = Except.ok ⟨0, mkRat 1 10, 10, 0⟩ ∧ (0 : ℚ) ≠ mkRat 1234 100 :=
  ⟨by decide, by decide⟩

/-- C2, amended: tokens-per-second is extracted only from the parenthetical
form "(X ms per token, Y tok/s)" or "(X ms per token, Y tokens per second)"
(both yielding Y, e.g. 12.34); a selected eval line with no opening
parenthesis leaves tps at its default 0. -/
theorem C2_tps_parenthetical_only (text : String) (m : Metrics)
    (hok : parse_llama_output text = Except.ok m) :
    (∀ l, (splitlinesC text.data).find? isGenEvalLine = some l →
        occursIn "(".data l = false → m.tps = 0) ∧
    (parse_llama_output "eval time = 5000.0 ms (80.5 ms per token, 12.34 tok/s)"
        = Except.ok ⟨0, 5, 0, mkRat 1234 100⟩) ∧
    (parse_llama_output "eval time = 5000.0 ms (80.5 ms per token, 12.34 tokens per second)"
        = Except.ok ⟨0, 5, 0, mkRat 1234 100⟩) := by
  refine ⟨?_, by decide, by decide⟩
  intro l hl hnoparen
  obtain ⟨-, hor⟩ := parse_ok_destruct text m hok
  rcases hor with ⟨hnone, -⟩ | ⟨l', hl', hf⟩
  · rw [hl] at hnone
    exact Option.noConfusion hnone
  · rw [hl] at hl'
    injection hl' with he
    subst he
    obtain ⟨-, htps, -⟩ := evalFields_ok_destruct l _ hf
    rw [searchTps_none_of_no_paren l hnoparen] at htps
    injection htps with he'
    exact he'.symm

/-- Witness for the amended C2 at the bare-literal eval line. -/
theorem C2_witness :
    parse_llama_output "eval time = 100.0 ms / 10 runs, 12.34 tok/s"
      = Except.ok ⟨0, mkRat 1 10, 10, 0⟩ ∧
    (Metrics.mk 0 (mkRat 1 10) 10 0).tps = 0 :=
  ⟨by decide,
   (C2_tps_parenthetical_only "eval time = 100.0 ms / 10 runs, 12.34 tok/s"
      ⟨0, mkRat 1 10, 10, 0⟩ (by decide)).1
     "eval time = 100.0 ms / 10 runs, 12.34 tok/s".data
     (by decide) (by decide)⟩

/-- C3: on the text "load time = ... ms" the load-time pattern matches with
capture "...", which Python `float` rejects, so the parser raises a
ValueError instead of returning a defaulted record — contradicting the
never-raises claim. -/
theorem C3_parser_raises_on_dotted_capture :
    parse_llama_output "load time = ... ms" = Except.error valueErrorMsg := by
  decide

/-- C4: whenever the parser returns a record, each of the four fields holds
its default (0.0 / 0.0 / 0 / 0.0) when its pattern finds no match; in
particular with no generation eval line at all, eval time, token count and
tokens/sec are all defaults (the `Metrics` structure itself guarantees all
four fields are always present). -/
theorem C4_all_fields_default_when_unmatched (text : String) (m : Metrics)
    (hok : parse_llama_output text = Except.ok m) :
    (searchBy matchLoadAt text.data = none → m.load_s = 0) ∧
    ((splitlinesC text.data).find? isGenEvalLine = none →
      m.eval_s = 0 ∧ m.tokens = 0 ∧ m.tps = 0) ∧
    (∀ l, (splitlinesC text.data).find? isGenEvalLine = some l →
      (searchBy matchEvalMsAt l = none → m.eval_s = 0) ∧
      (searchBy matchTpsAt l = none → m.tps = 0) ∧
      (searchBy matchRunsAt l = none → m.tokens = 0)) := by
  obtain ⟨hload, hor⟩ := parse_ok_destruct text m hok
  refine ⟨?_, ?_, ?_⟩
  · intro hnone
    rw [hnone] at hload
    injection hload with he
    exact he.symm
  · intro hnone
    rcases hor with ⟨-, h1, h2, h3⟩ | ⟨l, hl, -⟩
    · exact ⟨h1, h3, h2⟩
    · rw [hnone] at hl
      exact Option.noConfusion hl
  · intro l hl
    rcases hor with ⟨hnone, -⟩ | ⟨l', hl', hf⟩
    · rw [hl] at hnone
      exact Option.noConfusion hnone
    · rw [hl] at hl'
      injection hl' with he
      subst he
      obtain ⟨h1, h2, h3⟩ := evalFields_ok_destruct l _ hf
      refine ⟨?_, ?_, ?_⟩
      · intro hnone
        rw [hnone] at h1
        injection h1 with he'
        exact he'.symm
      · intro hnone
        rw [hnone] at h2
        injection h2 with he'
        exact he'.symm
      · intro hnone
        rw [hnone] at h3
        exact h3

/-- Witness for C4 at a text with no recognizable line at all. -/
theorem C4_witness :
    parse_llama_output "hello" = Except.ok ⟨0, 0, 0, 0⟩ ∧
    ((0 : ℚ) = 0 ∧ (0 : Nat) = 0 ∧ (0 : ℚ) = 0) :=
  ⟨by decide,
   (C4_all_fields_default_when_unmatched "hello" ⟨0, 0, 0, 0⟩ (by decide)).2.1
     (by decide)⟩

/-- C9, counterexample: an output text that contains the substring
"perplexity = 15.2671" but whose first perplexity match is an earlier
"perplexity = 3.0" returns 3.0, not 15.2671. -/
theorem C9_counterexample :
    compute_ppl "perplexity = 3.0 perplexity = 15.2671" = Except.ok 3 ∧
    occursIn "perplexity = 15.2671".data
      "perplexity = 3.0 perplexity = 15.2671".data = true ∧
    (3 : ℚ) ≠ mkRat 152671 10000 :=
  ⟨by decide, by decide, by decide⟩

/-- C9, amended: the Perplexity Driver returns the float captured by the
first match of "perplexity = <number>" — in particular exactly 15.2671 when
that is what the first match captures — and raises a fatal extraction error
when the pattern does not match at all. -/
theorem C9_first_match_and_fatal_absence (output : String) :
    ((searchBy matchPplAt output.data = none →
        compute_ppl output = Except.error pplErrorMsg) ∧
     (∀ g v, searchBy matchPplAt output.data = some g → pyFloatQ g = some v →
        compute_ppl output = Except.ok v)) ∧
    compute_ppl "perplexity = 15.2671" = Except.ok (mkRat 152671 10000) := by
  refine ⟨⟨?_, ?_⟩, by decide⟩
  · intro h
    unfold compute_ppl
    rw [h]
  · intro g v hg hv
    unfold compute_ppl
    rw [hg]
    dsimp only
    rw [hv]

/-- Witness for C9 on a text with no perplexity pattern. -/
theorem C9_witness :
    compute_ppl "no value here" = Except.error pplErrorMsg :=
  (C9_first_match_and_fatal_absence "no value here").1.1 (by decide)

/-- A successful driver loop produces one row per prompt. -/
theorem benchLoop_ok_length
    (step : Nat → String → Except String (BenchmarkRow × List String)) :
    ∀ (i : Nat) (ps : List String) (out : BenchOutcome),
      benchLoop step i ps = Except.ok out → out.rows.length = ps.length := by
  intro i ps
  induction ps generalizing i with
  | nil =>
    intro out h
    unfold benchLoop at h
    injection h with h
    subst h
    rfl
  | cons p ps ih =>
    intro out h
    unfold benchLoop at h
    cases h1 : step i p with
    | error e => rw [h1] at h; exact Except.noConfusion h
    | ok pr =>
      obtain ⟨row, w⟩ := pr
      rw [h1] at h
      dsimp only at h
      cases h2 : benchLoop step (i + 1) ps with
      | error e => rw [h2] at h; exact Except.noConfusion h
      | ok rest =>
        rw [h2] at h
        dsimp only at h
        injection h with h
        subst h
        simp [ih (i + 1) rest h2]

/-- In a successful driver loop, the row at index `j` comes from the step
applied to the prompt at index `j` with ordinal `i + j`, and every warning
line that step produced is in the collected console output. -/
theorem benchLoop_ok_get
    (step : Nat → String → Except String (BenchmarkRow × List String)) :
    ∀ (i : Nat) (ps : List String) (out : BenchOutcome),
      benchLoop step i ps = Except.ok out →
      ∀ (j : Nat) (pj : String), ps[j]? = some pj →
        ∃ r w, step (i + j) pj = Except.ok (r, w) ∧ out.rows[j]? = some r ∧
          ∀ s ∈ w, s ∈ out.console := by
  intro i ps
  induction ps generalizing i with
  | nil =>
    intro out _ j pj hj
    simp at hj
  | cons p ps ih =>
    intro out h j pj hj
    unfold benchLoop at h
    cases h1 : step i p with
    | error e => rw [h1] at h; exact Except.noConfusion h
    | ok pr =>
      obtain ⟨row, w⟩ := pr
      rw [h1] at h
      dsimp only at h
      cases h2 : benchLoop step (i + 1) ps with
      | error e => rw [h2] at h; exact Except.noConfusion h
      | ok rest =>
        rw [h2] at h
        dsimp only at h
        injection h with h
        subst h
        cases j with
        | zero =>
          simp only [List.getElem?_cons_zero, Option.some.injEq] at hj
          subst hj
          refine ⟨row, w, by rw [Nat.add_zero]; exact h1, by simp, ?_⟩
          intro s hs
          simp [hs]
        | succ j =>
          simp only [List.getElem?_cons_succ] at hj
          obtain ⟨r, w', hst, hrow, hmem⟩ := ih (i + 1) rest h2 j pj hj
          refine ⟨r, w', ?_, ?_, ?_⟩
          · have he : i + (j + 1) = i + 1 + j := by omega
            rw [he]
            exact hst
          · simpa using hrow
          · intro s hs
            simp [hmem s hs]

/-- A successful driver run means the prompt list was non-empty and the
loop over it succeeded. -/
theorem run_ok_destruct (run : List String → ProcOut)
    (mn mp content cli : String) (cs mt : Nat) (ngl : Int) (temp : String)
    (out : BenchOutcome)
    (h : run_llama_benchmark run mn mp content cli cs mt ngl temp
      = Except.ok out) :
    promptsOf content ≠ [] ∧
    benchLoop (benchStep run mn mp cli mt cs temp ngl) 1 (promptsOf content)
      = Except.ok out := by
  unfold run_llama_benchmark at h
  by_cases hp : promptsOf content = []
  · rw [if_pos hp] at h
    exact Except.noConfusion h
  · rw [if_neg hp] at h
    exact ⟨hp, h⟩

/-- Unfolding of a successful driver step: the subprocess is invoked on the
built command, its standard-error stream alone is parsed, the row carries
the model label, the ordinal and the parsed metrics, and the warning lines
are produced exactly when both core metrics are zero. -/
theorem benchStep_ok_destruct (run : List String → ProcOut)
    (mn mp cli : String) (mt cs : Nat) (temp : String) (ngl : Int)
    (i : Nat) (p : String) (r : BenchmarkRow) (w : List String)
    (h : benchStep run mn mp cli mt cs temp ngl i p = Except.ok (r, w)) :
    ∃ m, parse_llama_output (run (buildCommand cli mp p mt cs temp ngl)).stderr
        = Except.ok m ∧
      r = ⟨mn, i, m.load_s, m.eval_s, m.tps⟩ ∧
      w = (if m.tps = 0 ∧ m.tokens = 0 then
            [warnMsg i, (run (buildCommand cli mp p mt cs temp ngl)).stderr]
          else []) := by
  unfold benchStep at h
  cases h1 : parse_llama_output
      (run (buildCommand cli mp p mt cs temp ngl)).stderr with
  | error e => rw [h1] at h; exact Except.noConfusion h
  | ok m =>
    rw [h1] at h
    dsimp only at h
    injection h with h
    rw [Prod.mk.injEq] at h
    obtain ⟨hr, hw⟩ := h
    exact ⟨m, rfl, hr.symm, hw.symm⟩

/-- Dropping a leading segment never lengthens a list. -/
theorem dropWhile_length_le (p : Char → Bool) (l : List Char) :
    (l.dropWhile p).length ≤ l.length := by
  induction l with
  | nil => simp
  | cons a t ih =>
    by_cases h : p a = true
    · rw [List.dropWhile_cons_of_pos h]
      exact Nat.le_succ_of_le ih
    · rw [List.dropWhile_cons_of_neg h]

/-- `dropWhile` returns a suffix. -/
theorem exists_append_dropWhile (p : Char → Bool) (l : List Char) :
    ∃ u, u ++ l.dropWhile p = l := by
  induction l with
  | nil => exact ⟨[], rfl⟩
  | cons a t ih =>
    by_cases h : p a = true
    · obtain ⟨u, hu⟩ := ih
      exact ⟨a :: u, by rw [List.dropWhile_cons_of_pos h, List.cons_append, hu]⟩
    · exact ⟨[], by rw [List.dropWhile_cons_of_neg h]; rfl⟩

/-- Stripping a string with leading whitespace changes it. -/
theorem strip_ne_of_head_space (c : Char) (t : List Char)
    (hc : isSpaceC c = true) : strip ⟨c :: t⟩ ≠ ⟨c :: t⟩ := by
  intro he
  have h1 : (strip ⟨c :: t⟩).data.length ≤ t.length := by
    show (((c :: t).dropWhile isSpaceC).reverse.dropWhile
      isSpaceC).reverse.length ≤ t.length
    rw [List.dropWhile_cons_of_pos hc, List.length_reverse]
    calc ((t.dropWhile isSpaceC).reverse.dropWhile isSpaceC).length
        ≤ (t.dropWhile isSpaceC).reverse.length := dropWhile_length_le _ _
      _ = (t.dropWhile isSpaceC).length := List.length_reverse _
      _ ≤ t.length := dropWhile_length_le _ _
  rw [he] at h1
  have h2 : t.length + 1 ≤ t.length := by simpa using h1
  omega

/-- Stripping a string with trailing whitespace changes it. -/
theorem strip_ne_of_last_space (c : Char) (t : List Char)
    (hc : isSpaceC c = true) : strip ⟨t ++ [c]⟩ ≠ ⟨t ++ [c]⟩ := by
  intro he
  have hlt : (strip ⟨t ++ [c]⟩).data.length < (t ++ [c]).length := by
    show (((t ++ [c]).dropWhile isSpaceC).reverse.dropWhile
      isSpaceC).reverse.length < _
    rw [List.length_reverse]
    cases hd : (t ++ [c]).dropWhile isSpaceC with
    | nil => simp
    | cons x d =>
      obtain ⟨u, hu⟩ := exists_append_dropWhile isSpaceC (t ++ [c])
      rw [hd] at hu
      have hlast : (x :: d).getLast? = some c := by
        have h1 : (u ++ x :: d).getLast? = (x :: d).getLast? :=
          List.getLast?_append_of_ne_nil u (by simp)
        rw [hu] at h1
        rw [← h1]
        exact List.getLast?_concat t
      have hrev : (x :: d).reverse.head? = some c := by
        rw [List.head?_reverse]
        exact hlast
      cases hr : (x :: d).reverse with
      | nil => rw [hr] at hrev; exact Option.noConfusion hrev
      | cons y e =>
        rw [hr] at hrev
        injection hrev with hy
        subst hy
        rw [List.dropWhile_cons_of_pos hc]
        have h2 : (e.dropWhile isSpaceC).length ≤ e.length :=
          dropWhile_length_le _ _
        have h3 : e.length = d.length := by
          have h5 : (x :: d).reverse.length = (x :: d).length :=
            List.length_reverse _
          rw [hr] at h5
          simpa using h5
        have h4 : (x :: d).length ≤ (t ++ [y]).length := by
          rw [← hu]
          simp
        simp only [List.length_cons, List.length_append,
          List.length_singleton] at h4 ⊢
        omega
  rw [he] at hlt
  simp at hlt

/-- C5, counterexample: a subprocess whose metrics appear only on
standard-out produces a defaulted row (the warning even fires), while
parsing the stdout + stderr concatenation would give a 5-second load time:
the parser is not handed the concatenation. -/
theorem C5_counterexample :
    run_llama_benchmark (fun _ => ⟨"load time = 5000.0 ms", ""⟩) "m" "mp" "hi"
        "cli" 2048 100 0 "0.7"
      = Except.ok ⟨[⟨"m", 1, 0, 0, 0⟩], [warnMsg 1, ""]⟩ ∧
    parse_llama_output ("load time = 5000.0 ms" ++ "") = Except.ok ⟨5, 0, 0, 0⟩ ∧
    (5 : ℚ) ≠ 0 :=
  ⟨by decide, by decide, by decide⟩

/-- C5, amended: for every prompt the text handed to the Log Parser is the
standard-error stream alone of that prompt's subprocess invocation: each
returned row carries exactly the metrics parsed from that stream. -/
theorem C5_parser_receives_stderr_only
    (run : List String → ProcOut) (mn mp content cli : String)
    (cs mt : Nat) (ngl : Int) (temp : String) (out : BenchOutcome)
    (hok : run_llama_benchmark run mn mp content cli cs mt ngl temp
      = Except.ok out) :
    ∀ (j : Nat) (pj : String) (m : Metrics),
      (promptsOf content)[j]? = some pj →
      parse_llama_output (run (buildCommand cli mp pj mt cs temp ngl)).stderr
        = Except.ok m →
      out.rows[j]? = some ⟨mn, j + 1, m.load_s, m.eval_s, m.tps⟩ := by
  intro j pj m hj hm
  obtain ⟨-, hloop⟩ := run_ok_destruct run mn mp content cli cs mt ngl temp out hok
  obtain ⟨r, w, hst, hrow, -⟩ := benchLoop_ok_get _ 1 _ out hloop j pj hj
  obtain ⟨m', hm', hr, -⟩ :=
    benchStep_ok_destruct run mn mp cli mt cs temp ngl (1 + j) pj r w hst
  rw [hm] at hm'
  injection hm' with he
  subst he
  rw [hrow, hr, Nat.add_comm 1 j]

/-- Witness for the amended C5: metrics on stderr are what the row holds. -/
theorem C5_witness :
    run_llama_benchmark (fun _ => ⟨"out", "load time = 2000.0 ms"⟩) "m" "mp"
        "hi" "cli" 2048 100 0 "0.7"
      = Except.ok ⟨[⟨"m", 1, 2, 0, 0⟩], [warnMsg 1, "load time = 2000.0 ms"]⟩ ∧
    (BenchOutcome.mk [⟨"m", 1, 2, 0, 0⟩]
        [warnMsg 1, "load time = 2000.0 ms"]).rows[0]?
      = some ⟨"m", 0 + 1, 2, 0, 0⟩ :=
  ⟨by decide,
   C5_parser_receives_stderr_only (fun _ => ⟨"out", "load time = 2000.0 ms"⟩)
     "m" "mp" "hi" "cli" 2048 100 0 "0.7"
     ⟨[⟨"m", 1, 2, 0, 0⟩], [warnMsg 1, "load time = 2000.0 ms"]⟩ (by decide)
     0 "hi" ⟨2, 0, 0, 0⟩ (by decide) (by decide)⟩

/-- C6: a prompt file with zero non-blank lines makes the driver fail with
the fatal configuration error, whatever the subprocess oracle would do —
so no subprocess is consulted and no row is produced. -/
theorem C6_empty_prompt_file_fatal (content : String)
    (h : promptsOf content = []) :
    ∀ (run : List String → ProcOut) (mn mp cli : String)
      (cs mt : Nat) (ngl : Int) (temp : String),
      run_llama_benchmark run mn mp content cli cs mt ngl temp
        = Except.error "No prompts found in prompt file." := by
  intro run mn mp cli cs mt ngl temp
  unfold run_llama_benchmark
  rw [if_pos h]

/-- Witness for C6 at a prompt file of blank lines only. -/
theorem C6_witness :
    promptsOf "  \n\n\t\n" = [] ∧
    run_llama_benchmark (fun _ => ⟨"", ""⟩) "m" "mp" "  \n\n\t\n" "cli" 2048
        100 0 "0.7"
      = Except.error "No prompts found in prompt file." :=
  ⟨by decide,
   C6_empty_prompt_file_fatal "  \n\n\t\n" (by decide) (fun _ => ⟨"", ""⟩)
     "m" "mp" "cli" 2048 100 0 "0.7"⟩

/-- C7: a successful run over a prompt file with `n ≥ 1` non-blank lines
returns exactly `n` rows — blank lines contribute none — and the row at
index `j` belongs to the `j`-th non-blank prompt, carrying the 1-based
consecutive ordinal `j + 1` and that prompt's parsed metrics. -/
theorem C7_one_row_per_nonblank_prompt
    (run : List String → ProcOut) (mn mp content cli : String)
    (cs mt : Nat) (ngl : Int) (temp : String) (out : BenchOutcome)
    (hok : run_llama_benchmark run mn mp content cli cs mt ngl temp
      = Except.ok out)
    (hn : 1 ≤ (promptsOf content).length) :
    out.rows.length = (promptsOf content).length ∧
    ∀ (j : Nat) (pj : String) (m : Metrics),
      (promptsOf content)[j]? = some pj →
      parse_llama_output (run (buildCommand cli mp pj mt cs temp ngl)).stderr
        = Except.ok m →
      out.rows[j]? = some ⟨mn, j + 1, m.load_s, m.eval_s, m.tps⟩ := by
  obtain ⟨-, hloop⟩ := run_ok_destruct run mn mp content cli cs mt ngl temp out hok
  constructor
  · exact benchLoop_ok_length _ 1 _ out hloop
  · intro j pj m hj hm
    obtain ⟨r, w, hst, hrow, -⟩ := benchLoop_ok_get _ 1 _ out hloop j pj hj
    obtain ⟨m', hm', hr, -⟩ :=
      benchStep_ok_destruct run mn mp cli mt cs temp ngl (1 + j) pj r w hst
    rw [hm] at hm'
    injection hm' with he
    subst he
    rw [hrow, hr, Nat.add_comm 1 j]

/-- Witness for C7 on a file with three non-blank and two blank lines. -/
theorem C7_witness :
    run_llama_benchmark
        (fun _ =>
          ⟨"", "eval time = 1000.0 ms / 10 runs ( 100.0 ms per token, 10.0 tok/s)"⟩)
        "m" "mp" "a\n\nb\n \nc" "cli" 2048 100 0 "0.7"
      = Except.ok
          ⟨[⟨"m", 1, 0, 1, 10⟩, ⟨"m", 2, 0, 1, 10⟩, ⟨"m", 3, 0, 1, 10⟩], []⟩ ∧
    1 ≤ (promptsOf "a\n\nb\n \nc").length ∧
    ([⟨"m", 1, 0, 1, 10⟩, ⟨"m", 2, 0, 1, 10⟩, ⟨"m", 3, 0, 1, 10⟩] :
        List BenchmarkRow).length = (promptsOf "a\n\nb\n \nc").length :=
  ⟨by decide, by decide,
   (C7_one_row_per_nonblank_prompt
      (fun _ =>
        ⟨"", "eval time = 1000.0 ms / 10 runs ( 100.0 ms per token, 10.0 tok/s)"⟩)
      "m" "mp" "a\n\nb\n \nc" "cli" 2048 100 0 "0.7"
      ⟨[⟨"m", 1, 0, 1, 10⟩, ⟨"m", 2, 0, 1, 10⟩, ⟨"m", 3, 0, 1, 10⟩], []⟩
      (by decide) (by decide)).1⟩

/-- C8: when a prompt's parsed record has tokens/sec 0 and token count 0
simultaneously, the console output contains both the warning line and the
raw captured text, yet the zero-valued row is still at its index and the
row count still equals the number of non-blank prompts. -/
theorem C8_zero_metrics_warn_but_keep_row
    (run : List String → ProcOut) (mn mp content cli : String)
    (cs mt : Nat) (ngl : Int) (temp : String) (out : BenchOutcome)
    (hok : run_llama_benchmark run mn mp content cli cs mt ngl temp
      = Except.ok out)
    (j : Nat) (pj : String)
    (hj : (promptsOf content)[j]? = some pj)
    (m : Metrics)
    (hm : parse_llama_output (run (buildCommand cli mp pj mt cs temp ngl)).stderr
      = Except.ok m)
    (h0 : m.tps = 0) (h0' : m.tokens = 0) :
    (run (buildCommand cli mp pj mt cs temp ngl)).stderr ∈ out.console ∧
    warnMsg (j + 1) ∈ out.console ∧
    out.rows[j]? = some ⟨mn, j + 1, m.load_s, m.eval_s, m.tps⟩ ∧
    out.rows.length = (promptsOf content).length := by
  obtain ⟨-, hloop⟩ := run_ok_destruct run mn mp content cli cs mt ngl temp out hok
  obtain ⟨r, w, hst, hrow, hmem⟩ := benchLoop_ok_get _ 1 _ out hloop j pj hj
  obtain ⟨m', hm', hr, hw⟩ :=
    benchStep_ok_destruct run mn mp cli mt cs temp ngl (1 + j) pj r w hst
  rw [hm] at hm'
  injection hm' with he
  subst he
  subst hw
  rw [if_pos (⟨h0, h0'⟩ : m.tps = 0 ∧ m.tokens = 0)] at hmem
  refine ⟨?_, ?_, ?_, ?_⟩
  · exact hmem _ (by simp)
  · have hh := hmem (warnMsg (1 + j)) (by simp)
    rw [Nat.add_comm 1 j] at hh
    exact hh
  · rw [hrow, hr, Nat.add_comm 1 j]
  · exact benchLoop_ok_length _ 1 _ out hloop

/-- Witness for C8 on a subprocess with empty captured streams. -/
theorem C8_witness :
    run_llama_benchmark (fun _ => ⟨"", ""⟩) "m" "mp" "hi" "cli" 2048 100 0
        "0.7"
      = Except.ok ⟨[⟨"m", 1, 0, 0, 0⟩], [warnMsg 1, ""]⟩ ∧
    ("" ∈ [warnMsg 1, ""] ∧ warnMsg (0 + 1) ∈ [warnMsg 1, ""] ∧
      ([⟨"m", 1, 0, 0, 0⟩] : List BenchmarkRow)[0]?
        = some ⟨"m", 0 + 1, 0, 0, 0⟩ ∧
      ([⟨"m", 1, 0, 0, 0⟩] : List BenchmarkRow).length
        = (promptsOf "hi").length) :=
  ⟨by decide,
   C8_zero_metrics_warn_but_keep_row (fun _ => ⟨"", ""⟩) "m" "mp" "hi" "cli"
     2048 100 0 "0.7" ⟨[⟨"m", 1, 0, 0, 0⟩], [warnMsg 1, ""]⟩ (by decide)
     0 "hi" (by decide) ⟨0, 0, 0, 0⟩ (by decide) (by decide) (by decide)⟩

/-- C10: the prompts the driver benchmarks are exactly the stripped forms
of the non-blank prompt-file lines in order; the subprocess command passes
the stripped prompt right after the "-p" flag; and stripping changes any
line with leading or trailing whitespace. -/
theorem C10_prompts_are_stripped_lines
    (run : List String → ProcOut) (mn mp content cli : String)
    (cs mt : Nat) (ngl : Int) (temp : String) (out : BenchOutcome)
    (hok : run_llama_benchmark run mn mp content cli cs mt ngl temp
      = Except.ok out) :
    promptsOf content
      = ((splitlinesC content.data).filter
          (fun l => strip ⟨l⟩ ≠ "")).map (fun l => strip ⟨l⟩) ∧
    (∀ (j : Nat) (pj : String) (m : Metrics),
      (promptsOf content)[j]? = some pj →
      parse_llama_output (run (buildCommand cli mp pj mt cs temp ngl)).stderr
        = Except.ok m →
      out.rows[j]? = some ⟨mn, j + 1, m.load_s, m.eval_s, m.tps⟩ ∧
      (buildCommand cli mp pj mt cs temp ngl)[3]? = some "-p" ∧
      (buildCommand cli mp pj mt cs temp ngl)[4]? = some pj) ∧
    (∀ (c : Char) (t : List Char), isSpaceC c = true →
      strip ⟨c :: t⟩ ≠ ⟨c :: t⟩ ∧ strip ⟨t ++ [c]⟩ ≠ ⟨t ++ [c]⟩) := by
  refine ⟨?_, ?_, ?_⟩
  · unfold promptsOf
    exact List.filter_map _ _
  · intro j pj m hj hm
    obtain ⟨-, hloop⟩ := run_ok_destruct run mn mp content cli cs mt ngl temp out hok
    obtain ⟨r, w, hst, hrow, -⟩ := benchLoop_ok_get _ 1 _ out hloop j pj hj
    obtain ⟨m', hm', hr, -⟩ :=
      benchStep_ok_destruct run mn mp cli mt cs temp ngl (1 + j) pj r w hst
    rw [hm] at hm'
    injection hm' with he
    subst he
    refine ⟨?_, ?_, ?_⟩
    · rw [hrow, hr, Nat.add_comm 1 j]
    · simp [buildCommand]
    · simp [buildCommand]
  · intro c t hc
    exact ⟨strip_ne_of_head_space c t hc, strip_ne_of_last_space c t hc⟩

/-- Witness for C10 on a prompt line with surrounding whitespace. -/
theorem C10_witness :
    run_llama_benchmark (fun _ => ⟨"", ""⟩) "m" "mp" " hi \nx" "cli" 2048 100
        0 "0.7"
      = Except.ok ⟨[⟨"m", 1, 0, 0, 0⟩, ⟨"m", 2, 0, 0, 0⟩],
                   [warnMsg 1, "", warnMsg 2, ""]⟩ ∧
    ((BenchOutcome.mk [⟨"m", 1, 0, 0, 0⟩, ⟨"m", 2, 0, 0, 0⟩]
          [warnMsg 1, "", warnMsg 2, ""]).rows[0]?
        = some ⟨"m", 0 + 1, 0, 0, 0⟩ ∧
      (buildCommand "cli" "mp" "hi" 100 2048 "0.7" 0)[3]? = some "-p" ∧
      (buildCommand "cli" "mp" "hi" 100 2048 "0.7" 0)[4]? = some "hi") :=
  ⟨by decide,
   (C10_prompts_are_stripped_lines (fun _ => ⟨"", ""⟩) "m" "mp" " hi \nx"
      "cli" 2048 100 0 "0.7"
      ⟨[⟨"m", 1, 0, 0, 0⟩, ⟨"m", 2, 0, 0, 0⟩], [warnMsg 1, "", warnMsg 2, ""]⟩
      (by decide)).2.1 0 "hi" ⟨0, 0, 0, 0⟩ (by decide) (by decide)⟩
